import Mathlib

/-!
Verification development for the EasySoccerData response-mapping layer.

The Python parsers of the repository are shallowly embedded as Lean
functions.  Decoded JSON payloads are modelled as structures whose fields
are wrapped in `Option` (a missing dictionary key is `none`); the Python
`dict.get(key, default)` idiom becomes `Option.getD`, the raising
`dict[key]` lookup becomes `getKey` in the `Except` monad, and the raising
`list[i]` lookup becomes `listGet`.  Record construction in a parser
mirrors the keyword arguments of the corresponding dataclass constructor,
in source order.
-/

/-- The dictionary keys that the embedded parsers access with a raising
`dict[key]` lookup.  Keeping them as an enumeration preserves the identity
of the key named by a Python `KeyError`. -/
inductive Key where
  | name
  | slug
  | shortName
  | position
  | jerseyNumber
  | height
  | preferredFoot
  | gender
  | id
  | shirtNumber
  | dateOfBirthTimestamp
  | contractUntilTimestamp
  | proposedMarketValue
  | player
  | values
  | percentages
  | leagues
  deriving DecidableEq, Repr

/-- The Python exceptions that the embedded code can raise. -/
inductive PyErr where
  | keyError (k : Key)
  | indexError
  | valueError
  deriving DecidableEq, Repr

/-- Embedding of the raising Python lookup `data[key]` on a field modelled
as `Option`: a present value is returned, an absent one raises KeyError. -/
def getKey {α : Type} (v : Option α) (k : Key) : Except PyErr α :=
  match v with
  | some x => .ok x
  | none => .error (.keyError k)

/-- Embedding of the raising Python lookup `data[i]` on a list. -/
def listGet {α : Type} (l : List α) (i : Nat) : Except PyErr α :=
  match l.get? i with
  | some x => .ok x
  | none => .error .indexError

namespace Sofascore

/-! ### Raw payload shapes read by the Sofascore parsers
(src/esd/sofascore/types/event.py, team.py, player.py, team_ex.py). -/

/-- Raw country object.  Modelled from the spec: the file
src/esd/sofascore/types/country.py (the `parse_country` helper) is not
present under src/; the spec describes only a country reference, so the
raw object is modelled as an optional name. -/
structure RawCountry where
  name : Option String := none
  deriving DecidableEq, Repr

/-- Modelled from the spec: the country reference record produced by the
missing `parse_country`, carrying the optional name unchanged. -/
structure Country where
  name : Option String := none
  deriving DecidableEq, Repr

/-- Modelled from the spec: `parse_country` from the absent
src/esd/sofascore/types/country.py, a field-for-field mapping of the raw
country object. -/
def parse_country (data : RawCountry) : Country :=
  { name := data.name }

/-- Raw teamColors object of an event team summary. -/
structure RawTeamColors where
  primary : Option String := none
  secondary : Option String := none
  text : Option String := none
  deriving DecidableEq, Repr

def RawTeamColors.empty : RawTeamColors := {}

/-- TeamColors dataclass (src/esd/sofascore/types/team.py lines 10-14). -/
structure TeamColors where
  primary : String
  secondary : String
  text : String
  deriving DecidableEq, Repr

/-- Raw score sub-object of an event. -/
structure RawTeamScore where
  current : Option Int := none
  display : Option Int := none
  period1 : Option Int := none
  period2 : Option Int := none
  normaltime : Option Int := none
  deriving DecidableEq, Repr

def RawTeamScore.empty : RawTeamScore := {}

/-- TeamScore dataclass (src/esd/sofascore/types/team.py lines 17-23). -/
structure TeamScore where
  current : Int
  display : Int
  period1 : Int
  period2 : Int
  normaltime : Int
  deriving DecidableEq, Repr

/-- parse_team_score (src/esd/sofascore/types/team.py lines 41-57): every
field is read with `.get(key, 0)`. -/
def parse_team_score (data : RawTeamScore) : TeamScore :=
  { current := data.current.getD 0
    display := data.display.getD 0
    period1 := data.period1.getD 0
    period2 := data.period2.getD 0
    normaltime := data.normaltime.getD 0 }

/-- Raw team summary object of an event. -/
structure RawTeamSummary where
  name : Option String := none
  shortName : Option String := none
  slug : Option String := none
  nameCode : Option String := none
  id : Option Int := none
  country : Option RawCountry := none
  entityType : Option String := none
  teamColors : Option RawTeamColors := none
  deriving DecidableEq, Repr

def RawTeamSummary.empty : RawTeamSummary := {}

/-- TeamSummary dataclass (src/esd/sofascore/types/team.py lines 26-38). -/
structure TeamSummary where
  name : String
  short_name : String
  slug : String
  name_code : String
  id : Int
  country : Country
  entity_type : String
  team_colors : TeamColors
  deriving DecidableEq, Repr

/-- Default hex colour used by parse_team_summary. -/
def blackHex : String := "#000000"

/-- parse_team_summary (src/esd/sofascore/types/team.py lines 60-86). -/
def parse_team_summary (data : RawTeamSummary) : TeamSummary :=
  { name := data.name.getD ""
    short_name := data.shortName.getD ""
    slug := data.slug.getD ""
    name_code := data.nameCode.getD ""
    id := data.id.getD 0
    country := parse_country (data.country.getD {})
    entity_type := data.entityType.getD ""
    team_colors :=
      { primary := (data.teamColors.getD {}).primary.getD blackHex
        secondary := (data.teamColors.getD {}).secondary.getD blackHex
        text := (data.teamColors.getD {}).text.getD blackHex } }

/-- Raw status sub-object of an event. -/
structure RawStatus where
  code : Option Int := none
  description : Option String := none
  type : Option String := none
  deriving DecidableEq, Repr

def RawStatus.empty : RawStatus := {}

/-- Default display string used by the Sofascore dataclasses. -/
def notAvailable : String := "n/a"

/-- Status dataclass (src/esd/sofascore/types/event.py lines 54-57). -/
structure Status where
  code : Int
  description : String
  type : String
  deriving DecidableEq, Repr

/-- parse_status (src/esd/sofascore/types/event.py lines 129-143). -/
def parse_status (data : RawStatus) : Status :=
  { code := data.code.getD 0
    description := data.description.getD notAvailable
    type := data.type.getD notAvailable }

/-- Raw time sub-object of an event. -/
structure RawTimeEvent where
  injuryTime1 : Option Int := none
  injuryTime2 : Option Int := none
  currentPeriodStartTimestamp : Option Int := none
  deriving DecidableEq, Repr

/-- TimeEvent dataclass (src/esd/sofascore/types/event.py lines 61-64). -/
structure TimeEvent where
  first_injury_time : Int
  second_injury_time : Int
  current_period_start : Int
  deriving DecidableEq, Repr

/-- parse_time_event (src/esd/sofascore/types/event.py lines 93-109). -/
def parse_time_event (data : RawTimeEvent) : TimeEvent :=
  { first_injury_time := data.injuryTime1.getD 0
    second_injury_time := data.injuryTime2.getD 0
    current_period_start := data.currentPeriodStartTimestamp.getD 0 }

/-- Raw roundInfo sub-object of an event. -/
structure RawRoundInfo where
  round : Option Int := none
  name : Option String := none
  cupRoundType : Option Int := none
  deriving DecidableEq, Repr

/-- RoundInfo dataclass (src/esd/sofascore/types/event.py lines 47-50). -/
structure RoundInfo where
  round : Int
  name : String
  cupRoundType : Int
  deriving DecidableEq, Repr

/-- parse_round_info (src/esd/sofascore/types/event.py lines 112-126). -/
def parse_round_info (data : RawRoundInfo) : RoundInfo :=
  { round := data.round.getD 0
    name := data.name.getD notAvailable
    cupRoundType := data.cupRoundType.getD 0 }

/-- Raw event entry of the events list payload. -/
structure RawEvent where
  id : Option Int := none
  startTimestamp : Option Int := none
  slug : Option String := none
  customId : Option String := none
  feedLocked : Option Bool := none
  finalResultOnly : Option Bool := none
  coverage : Option Int := none
  time : Option RawTimeEvent := none
  homeTeam : Option RawTeamSummary := none
  awayTeam : Option RawTeamSummary := none
  homeScore : Option RawTeamScore := none
  awayScore : Option RawTeamScore := none
  status : Option RawStatus := none
  roundInfo : Option RawRoundInfo := none
  deriving DecidableEq, Repr

/-- Event dataclass (src/esd/sofascore/types/event.py lines 68-85), with
each field typed by the value that parse_events actually stores in it: the
top-level reads use `.get(key)` with no default, so they can be `None`. -/
structure Event where
  round_info : RoundInfo
  id : Option Int
  custom_id : Option String
  status : Status
  home_team : TeamSummary
  home_score : TeamScore
  away_team : TeamSummary
  away_score : TeamScore
  coverage : Option Int
  time : TimeEvent
  start_timestamp : Option Int
  slug : Option String
  final_result_only : Option Bool
  feed_locked : Option Bool
  deriving DecidableEq, Repr

/-- The status type extracted by the selection predicate of parse_events:
`event.get("status", {}).get("type")`. -/
def rawStatusType (event : RawEvent) : Option String :=
  (event.status.getD {}).type

/-- The element constructed by the list comprehension of parse_events
(src/esd/sofascore/types/event.py lines 158-173), keyword arguments in
source order. -/
def eventOfRaw (event : RawEvent) : Event :=
  { id := event.id
    start_timestamp := event.startTimestamp
    slug := event.slug
    custom_id := event.customId
    feed_locked := event.feedLocked
    final_result_only := event.finalResultOnly
    coverage := event.coverage
    time := parse_time_event (event.time.getD {})
    home_team := parse_team_summary (event.homeTeam.getD {})
    away_team := parse_team_summary (event.awayTeam.getD {})
    home_score := parse_team_score (event.homeScore.getD {})
    away_score := parse_team_score (event.awayScore.getD {})
    status := parse_status (event.status.getD {})
    round_info := parse_round_info (event.roundInfo.getD {}) }

/-- parse_events (src/esd/sofascore/types/event.py lines 146-176): a list
comprehension guarded by
`event.get("status", {}).get("type") == target_status`.  The
`target_status` parameter is required in the source; `none` embeds a call
that passes Python `None` for it. -/
def parse_events (events : List RawEvent) (target_status : Option String) : List Event :=
  (events.filter (fun event => rawStatusType event == target_status)).map eventOfRaw

/-! ### Player parsing (src/esd/sofascore/types/player.py). -/

/-- Raw player object handed to parse_player. -/
structure RawPlayer where
  name : Option String := none
  slug : Option String := none
  shortName : Option String := none
  position : Option String := none
  jerseyNumber : Option String := none
  height : Option Int := none
  preferredFoot : Option String := none
  gender : Option String := none
  id : Option Int := none
  shirtNumber : Option Int := none
  dateOfBirthTimestamp : Option Int := none
  contractUntilTimestamp : Option Int := none
  proposedMarketValue : Option Int := none
  deriving DecidableEq, Repr

/-- Player dataclass (src/esd/sofascore/types/player.py lines 11-30). -/
structure Player where
  name : String
  slug : String
  short_name : String
  position : String
  jersey_number : String
  height : Int
  preferred_foot : String
  gender : String
  id : Int
  shirt_number : Int
  date_of_birth : Int
  contract_until : Int
  market_value : Int
  deriving DecidableEq, Repr

/-- parse_player (src/esd/sofascore/types/player.py lines 37-57): every
field is read with the raising lookup `data[key]`, keyword arguments in
source order. -/
def parse_player (data : RawPlayer) : Except PyErr Player := do
  let name ← getKey data.name .name
  let slug ← getKey data.slug .slug
  let short_name ← getKey data.shortName .shortName
  let position ← getKey data.position .position
  let jersey_number ← getKey data.jerseyNumber .jerseyNumber
  let height ← getKey data.height .height
  let preferred_foot ← getKey data.preferredFoot .preferredFoot
  let gender ← getKey data.gender .gender
  let id ← getKey data.id .id
  let shirt_number ← getKey data.shirtNumber .shirtNumber
  let date_of_birth ← getKey data.dateOfBirthTimestamp .dateOfBirthTimestamp
  let contract_until ← getKey data.contractUntilTimestamp .contractUntilTimestamp
  let market_value ← getKey data.proposedMarketValue .proposedMarketValue
  return { name, slug, short_name, position, jersey_number, height, preferred_foot,
           gender, id, shirt_number, date_of_birth, contract_until, market_value }

/-! ### Detailed team parsing (src/esd/sofascore/types/team_ex.py).
The files color.py, manager.py and the base Team dataclass of team.py are
not present under src/; their shapes are modelled from the spec. -/

/-- Raw teamColors object handed to the missing parse_color. -/
structure RawColor where
  primary : Option String := none
  secondary : Option String := none
  text : Option String := none
  deriving DecidableEq, Repr

/-- Modelled from the spec: the colour-scheme record (primary, secondary
and text colours) produced by the missing parse_color of
src/esd/sofascore/types/color.py. -/
structure Color where
  primary : Option String := none
  secondary : Option String := none
  text : Option String := none
  deriving DecidableEq, Repr

/-- Modelled from the spec: parse_color from the absent color.py, a
field-for-field mapping of the raw teamColors object. -/
def parse_color (data : RawColor) : Color :=
  { primary := data.primary, secondary := data.secondary, text := data.text }

/-- Raw manager object handed to the missing parse_manager. -/
structure RawManager where
  id : Option Int := none
  name : Option String := none
  deriving DecidableEq, Repr

/-- Modelled from the spec: the manager record of the detailed team
produced by the missing parse_manager of
src/esd/sofascore/types/manager.py. -/
structure Manager where
  id : Option Int := none
  name : Option String := none
  deriving DecidableEq, Repr

/-- Modelled from the spec: parse_manager from the absent manager.py, a
field-for-field mapping of the raw manager object. -/
def parse_manager (data : RawManager) : Manager :=
  { id := data.id, name := data.name }

/-- Raw team object handed to parse_team_ex. -/
structure RawTeamEx where
  name : Option String := none
  shortName : Option String := none
  slug : Option String := none
  nameCode : Option String := none
  id : Option Int := none
  entityType : Option String := none
  country : Option RawCountry := none
  teamColors : Option RawColor := none
  manager : Option RawManager := none
  deriving DecidableEq, Repr

/-- TeamEx dataclass (src/esd/sofascore/types/team_ex.py lines 9-11).  It
extends the base Team dataclass, whose file is not present under src/;
following the spec, the base class carries the roster field `players`
(a list of Player, absent from the base parse and populated lazily by a
second call), defaulting to the empty list. -/
structure TeamEx where
  name : Option String
  short_name : Option String
  slug : Option String
  name_code : Option String
  id : Int
  entity_type : Option String
  country : Country
  color : Color
  manager : Manager
  players : List Player := []
  deriving DecidableEq, Repr

/-- parse_team_ex (src/esd/sofascore/types/team_ex.py lines 14-37):
every field is read with `.get`, only `id` has an explicit default. -/
def parse_team_ex (data : RawTeamEx) : TeamEx :=
  { name := data.name
    short_name := data.shortName
    slug := data.slug
    name_code := data.nameCode
    id := data.id.getD 0
    entity_type := data.entityType
    country := parse_country (data.country.getD {})
    color := parse_color (data.teamColors.getD {})
    manager := parse_manager (data.manager.getD {}) }

/-! ### Service and client layer for the composed team operation
(src/esd/sofascore/service.py lines 76-109, client.py lines 48-61).
The HTTP transport is an external collaborator; it is modelled as a pair
of oracles giving, per team id, either the decoded payload of the
corresponding endpoint or a raised exception. -/

/-- One entry of the team-players payload: get_team_players accesses
`player["player"]` with a raising lookup. -/
structure RawPlayerEntry where
  player : Option RawPlayer := none
  deriving DecidableEq, Repr

/-- The transport collaborator, seen through the urls the two team
endpoints resolve to. -/
structure SofaWorld where
  teamPayload : Int → Except PyErr RawTeamEx
  playersPayload : Int → Except PyErr (List RawPlayerEntry)

/-- SofascoreService.get_team (src/esd/sofascore/service.py lines 76-91):
fetch the team payload and parse it; any exception is re-raised
unchanged. -/
def serviceGetTeam (w : SofaWorld) (team_id : Int) : Except PyErr TeamEx := do
  let data ← w.teamPayload team_id
  return parse_team_ex data

/-- SofascoreService.get_team_players (src/esd/sofascore/service.py lines
93-109): fetch the players payload and parse each entry with
`parse_player(player["player"])`; any exception is re-raised unchanged. -/
def serviceGetTeamPlayers (w : SofaWorld) (team_id : Int) : Except PyErr (List Player) := do
  let entries ← w.playersPayload team_id
  entries.mapM (fun entry => do
    let p ← getKey entry.player .player
    parse_player p)

/-- SofascoreClient.get_team (src/esd/sofascore/client.py lines 48-61):
the team-detail call followed unconditionally by the team-players call,
then `team.players = players` before returning the team. -/
def clientGetTeam (w : SofaWorld) (team_id : Int) : Except PyErr TeamEx := do
  let team ← serviceGetTeam w team_id
  let players ← serviceGetTeamPlayers w team_id
  return { team with players := players }

end Sofascore

namespace Promiedos

/-! ### Aggregated match statistics
(src/esd/promiedos/types/match_stats.py). -/

/-- StatsItem dataclass (src/esd/promiedos/types/match_stats.py lines
8-17). -/
structure StatsItem where
  home_value : String
  home_percentage : String
  away_value : String
  away_percentage : String
  deriving DecidableEq, Repr

/-- MatchStats dataclass (src/esd/promiedos/types/match_stats.py lines
20-34): every statistic field defaults to None. -/
structure MatchStats where
  total_shots : Option StatsItem := none
  shots_on_target : Option StatsItem := none
  possession : Option StatsItem := none
  free_kicks : Option StatsItem := none
  corners : Option StatsItem := none
  offsides : Option StatsItem := none
  yellow_cards : Option StatsItem := none
  red_cards : Option StatsItem := none
  fouls : Option StatsItem := none
  deriving DecidableEq, Repr

/-- Raw entry of the statistics list payload. -/
structure RawStat where
  name : Option String := none
  values : Option (List String) := none
  percentages : Option (List String) := none
  deriving DecidableEq, Repr

/-- parse_stats (src/esd/promiedos/types/match_stats.py lines 37-46):
raising lookups `stat["values"][0]`, `stat["values"][1]`,
`stat["percentages"][0]`, `stat["percentages"][1]`, evaluated in the
keyword-argument order of the StatsItem constructor. -/
def parse_stats (stat : RawStat) : Except PyErr StatsItem := do
  let vs ← getKey stat.values .values
  let home_value ← listGet vs 0
  let away_value ← listGet vs 1
  let ps ← getKey stat.percentages .percentages
  let home_percentage ← listGet ps 0
  let away_percentage ← listGet ps 1
  return { home_value, home_percentage, away_value, away_percentage }

/-- The canonical statistic keys, the values of the `stats_map` lookup
table of parse_match_stats. -/
inductive StatKey where
  | total_shots
  | shots_on_target
  | possession
  | free_kicks
  | corners
  | offsides
  | fouls
  | yellow_cards
  | red_cards
  deriving DecidableEq, Repr

/-- The free-text labels of the `stats_map` lookup table
(src/esd/promiedos/types/match_stats.py lines 59-69), byte-for-byte as in
the source (including the mojibake possession label). -/
def nTotalShots : String := "Total Remates"
def nShotsOnTarget : String := "Remates al arco"
def nPossession : String := "Posesi√≥n"
def nFreeKicks : String := "Saques de falta"
def nCorners : String := "Saques de Esquina"
def nOffsides : String := "Fueras de Juego"
def nFouls : String := "Faltas"
def nYellowCards : String := "Tarjetas Amarillas"
def nRedCards : String := "Tarjetas Rojas"

/-- The `stats_map` lookup table of parse_match_stats: free-text label to
canonical key, `none` for a label that is not in the table. -/
def statsMap (label : String) : Option StatKey :=
  if label = nTotalShots then some .total_shots
  else if label = nShotsOnTarget then some .shots_on_target
  else if label = nPossession then some .possession
  else if label = nFreeKicks then some .free_kicks
  else if label = nCorners then some .corners
  else if label = nOffsides then some .offsides
  else if label = nFouls then some .fouls
  else if label = nYellowCards then some .yellow_cards
  else if label = nRedCards then some .red_cards
  else none

/-- Store a parsed statistic under its canonical key: the embedding of
`parsed_stats[key] = parse_stats(stat)` followed at the end by
`MatchStats(**parsed_stats)`. -/
def setStat (k : StatKey) (item : StatsItem) (acc : MatchStats) : MatchStats :=
  match k with
  | .total_shots => { acc with total_shots := some item }
  | .shots_on_target => { acc with shots_on_target := some item }
  | .possession => { acc with possession := some item }
  | .free_kicks => { acc with free_kicks := some item }
  | .corners => { acc with corners := some item }
  | .offsides => { acc with offsides := some item }
  | .fouls => { acc with fouls := some item }
  | .yellow_cards => { acc with yellow_cards := some item }
  | .red_cards => { acc with red_cards := some item }

/-- The loop of parse_match_stats over the payload entries, threading the
`parsed_stats` accumulator. -/
def parseStatsLoop (data : List RawStat) (acc : MatchStats) : Except PyErr MatchStats :=
  match data with
  | [] => .ok acc
  | stat :: rest => do
    let label ← getKey stat.name .name
    match statsMap label with
    | some key => do
      let item ← parse_stats stat
      parseStatsLoop rest (setStat key item acc)
    | none => parseStatsLoop rest acc

/-- parse_match_stats (src/esd/promiedos/types/match_stats.py lines
49-77): scan the entries, look each `stat["name"]` up in `stats_map`,
keep only the recognized ones, and build the MatchStats record from the
collected mapping. -/
def parse_match_stats (data : List RawStat) : Except PyErr MatchStats :=
  parseStatsLoop data {}

/-- Number of populated statistic fields of a MatchStats record. -/
def populatedCount (m : MatchStats) : Nat :=
  (if m.total_shots.isSome then 1 else 0) +
  (if m.shots_on_target.isSome then 1 else 0) +
  (if m.possession.isSome then 1 else 0) +
  (if m.free_kicks.isSome then 1 else 0) +
  (if m.corners.isSome then 1 else 0) +
  (if m.offsides.isSome then 1 else 0) +
  (if m.yellow_cards.isSome then 1 else 0) +
  (if m.red_cards.isSome then 1 else 0) +
  (if m.fouls.isSome then 1 else 0)

/-! ### The fixed-format date parser
(src/esd/promiedos/types/match.py line 47 calls
`datetime.strptime(date_str, "%d-%m-%Y %H:%M")`).  strptime is part of
the Python standard library; it is embedded here following the CPython
`_strptime` implementation for this one format: `%d` matches a day as
`3[0-1]|[1-2]\d|0[1-9]|[1-9]| [1-9]`, `%m` a month as `1[0-2]|0[1-9]|[1-9]`,
`%Y` exactly four digits, a literal whitespace matches one or more
whitespace characters, `%H` an hour as `2[0-3]|[0-1]\d|\d`, `%M` a minute
as `[0-5]\d|\d`; the whole string must be consumed, and the datetime
constructor then rejects a day that does not exist in the given month or
a year below 1.  The subsequent `.timestamp()` is modelled as epoch
seconds of the parsed naive datetime taken as UTC. -/

/-- The decimal digit value of a character, `none` for a non-digit. -/
def digToNat? (c : Char) : Option Nat :=
  if 48 ≤ c.toNat ∧ c.toNat ≤ 57 then some (c.toNat - 48) else none

/-- The decimal digit character for a value below ten. -/
def dchar (n : Nat) : Char :=
  Char.ofNat (48 + n % 10)

/-- The whitespace class of the Python regular-expression escape matched
by a literal space in a strptime format. -/
def pySpace (c : Char) : Bool :=
  c == ' ' || c == '\t' || c == '\n' || c == '\x0b' || c == '\x0c' || c == '\r'

/-- Match `%d`: `3[0-1]|[1-2]\d|0[1-9]|[1-9]| [1-9]` at the head of the
character list, returning the day and the rest.  The two-digit
alternatives win exactly when they can be followed by the format tail
(the next pattern character is a literal dash, which no digit can
satisfy), so the backtracking of the regular expression reduces to the
lookahead encoded here. -/
def parseDay : List Char → Option (Nat × List Char)
  | [] => none
  | c1 :: rest1 =>
    match digToNat? c1 with
    | some a =>
      match rest1 with
      | c2 :: rest2 =>
        match digToNat? c2 with
        | some b =>
          if 1 ≤ 10 * a + b ∧ 10 * a + b ≤ 31 then some (10 * a + b, rest2) else none
        | none => if 1 ≤ a then some (a, rest1) else none
      | [] => if 1 ≤ a then some (a, []) else none
    | none =>
      if c1 = ' ' then
        match rest1 with
        | c2 :: rest2 =>
          match digToNat? c2 with
          | some b => if 1 ≤ b then some (b, rest2) else none
          | none => none
        | [] => none
      else none

/-- Match `%m`: `1[0-2]|0[1-9]|[1-9]`. -/
def parseMonth : List Char → Option (Nat × List Char)
  | [] => none
  | c1 :: rest1 =>
    match digToNat? c1 with
    | some a =>
      match rest1 with
      | c2 :: rest2 =>
        match digToNat? c2 with
        | some b =>
          if 1 ≤ 10 * a + b ∧ 10 * a + b ≤ 12 then some (10 * a + b, rest2) else none
        | none => if 1 ≤ a then some (a, rest1) else none
      | [] => if 1 ≤ a then some (a, []) else none
    | none => none

/-- Match `%Y`: exactly four digits. -/
def parseYear : List Char → Option (Nat × List Char)
  | c1 :: c2 :: c3 :: c4 :: rest =>
    match digToNat? c1, digToNat? c2, digToNat? c3, digToNat? c4 with
    | some a, some b, some c, some d => some (1000 * a + 100 * b + 10 * c + d, rest)
    | _, _, _, _ => none
  | _ => none

/-- Match the literal space of the format: one or more whitespace
characters. -/
def parseWS : List Char → Option (List Char)
  | [] => none
  | c :: rest => if pySpace c then some (rest.dropWhile pySpace) else none

/-- Match `%H`: `2[0-3]|[0-1]\d|\d`, with the same lookahead argument as
for the day (the next pattern character is a literal colon). -/
def parseHour : List Char → Option (Nat × List Char)
  | [] => none
  | c1 :: rest1 =>
    match digToNat? c1 with
    | some a =>
      match rest1 with
      | c2 :: rest2 =>
        match digToNat? c2 with
        | some b => if 10 * a + b ≤ 23 then some (10 * a + b, rest2) else none
        | none => some (a, rest1)
      | [] => some (a, [])
    | none => none

/-- Match `%M` at the end of the format: `[0-5]\d|\d`, after which the
whole string must have been consumed (otherwise strptime raises
"unconverted data remains"). -/
def parseMinFinal : List Char → Option Nat
  | [c1] =>
    match digToNat? c1 with
    | some a => some a
    | none => none
  | [c1, c2] =>
    match digToNat? c1, digToNat? c2 with
    | some a, some b => if a ≤ 5 then some (10 * a + b) else none
    | _, _ => none
  | _ => none

/-- A parsed naive datetime, minute precision. -/
structure DT where
  year : Nat
  month : Nat
  day : Nat
  hour : Nat
  minute : Nat
  deriving DecidableEq, Repr

/-- The full regular-expression match of the format "%d-%m-%Y %H:%M"
against a whole string. -/
def matchFixedFormat (l : List Char) : Option (Nat × Nat × Nat × Nat × Nat) := do
  let (d, r1) ← parseDay l
  match r1 with
  | '-' :: r2 => do
    let (mo, r3) ← parseMonth r2
    match r3 with
    | '-' :: r4 => do
      let (y, r5) ← parseYear r4
      let r6 ← parseWS r5
      let (h, r7) ← parseHour r6
      match r7 with
      | ':' :: r8 => do
        let mi ← parseMinFinal r8
        pure (d, mo, y, h, mi)
      | _ => none
    | _ => none
  | _ => none

/-- Number of days of a month in the proleptic Gregorian calendar, as
validated by the Python datetime constructor. -/
def daysInMonth (y m : Nat) : Nat :=
  if m = 2 then
    if (y % 4 = 0 ∧ y % 100 ≠ 0) ∨ y % 400 = 0 then 29 else 28
  else if m = 4 ∨ m = 6 ∨ m = 9 ∨ m = 11 then 30
  else 31

/-- `datetime.strptime(s, "%d-%m-%Y %H:%M")`: the pattern match followed
by the datetime constructor checks (year at least MINYEAR, day existing
in the month); any failure raises ValueError. -/
def pyStrptime (s : String) : Option DT :=
  match matchFixedFormat s.data with
  | some (d, mo, y, h, mi) =>
    if 1 ≤ y ∧ d ≤ daysInMonth y mo then some ⟨y, mo, d, h, mi⟩ else none
  | none => none

/-- Days from 1970-01-01 to the given civil date (proleptic Gregorian). -/
def daysFromCivil (y mo d : Nat) : Int :=
  let y2 : Nat := y - (if mo ≤ 2 then 1 else 0)
  let era : Nat := y2 / 400
  let yoe : Nat := y2 % 400
  let mp : Nat := (mo + 9) % 12
  let doy : Nat := (153 * mp + 2) / 5 + (d - 1)
  let doe : Nat := yoe * 365 + yoe / 4 - yoe / 100 + doy
  (era : Int) * 146097 + (doe : Int) - 719468

/-- `.timestamp()` of the parsed naive datetime, modelled as epoch
seconds with the datetime taken as UTC. -/
def timestampOf (dt : DT) : Int :=
  86400 * daysFromCivil dt.year dt.month dt.day + 3600 * dt.hour + 60 * dt.minute

/-! ### Match parsing (src/esd/promiedos/types/match.py, team.py,
status.py, scores.py).  The files color.py, tvnetwork.py, odds.py,
league.py and players.py are not present under src/; their shapes are
modelled from the spec, which mentions only a colour scheme, a
tournament/league reference, tv networks and lineups. -/

/-- Raw colors object handed to the missing parse_color. -/
structure RawPColor where
  primary : Option String := none
  secondary : Option String := none
  text : Option String := none
  deriving DecidableEq, Repr

/-- Modelled from the spec: the colour-scheme record produced by the
missing parse_color of src/esd/promiedos/types/color.py. -/
structure PColor where
  primary : Option String := none
  secondary : Option String := none
  text : Option String := none
  deriving DecidableEq, Repr

/-- Modelled from the spec: parse_color from the absent
src/esd/promiedos/types/color.py. -/
def parse_pcolor (data : RawPColor) : PColor :=
  { primary := data.primary, secondary := data.secondary, text := data.text }

/-- Raw team object of a match. -/
structure RawPTeam where
  name : Option String := none
  short_name : Option String := none
  url_name : Option String := none
  id : Option String := none
  country_id : Option String := none
  colors : Option RawPColor := none
  red_cards : Option Int := none
  deriving DecidableEq, Repr

/-- Team dataclass (src/esd/promiedos/types/team.py lines 9-21). -/
structure PTeam where
  id : Option String
  name : Option String
  slug : Option String
  short_name : Option String
  country_id : Option String
  color : PColor
  red_cards : Int
  deriving DecidableEq, Repr

/-- parse_team (src/esd/promiedos/types/team.py lines 24-36). -/
def parse_team (data : RawPTeam) : PTeam :=
  { name := data.name
    short_name := data.short_name
    slug := data.url_name
    id := data.id
    country_id := data.country_id
    color := parse_pcolor (data.colors.getD {})
    red_cards := data.red_cards.getD 0 }

/-- Raw status object of a match. -/
structure RawPStatus where
  enum : Option Int := none
  name : Option String := none
  short_name : Option String := none
  symbol_name : Option String := none
  deriving DecidableEq, Repr

/-- Status dataclass (src/esd/promiedos/types/status.py lines 8-17). -/
structure PStatus where
  enum : Int
  name : Option String
  short_name : Option String
  symbol_name : Option String
  deriving DecidableEq, Repr

/-- parse_status (src/esd/promiedos/types/status.py lines 20-29). -/
def parse_pstatus (data : RawPStatus) : PStatus :=
  { enum := data.enum.getD 0
    name := data.name
    short_name := data.short_name
    symbol_name := data.symbol_name }

/-- Scores dataclass (src/esd/promiedos/types/scores.py lines 8-14). -/
structure Scores where
  home : Int := 0
  away : Int := 0
  deriving DecidableEq, Repr

/-- parse_scores (src/esd/promiedos/types/scores.py lines 18-24): an
empty list yields the default record, otherwise the raising lookups
`data[0]` and `data[1]` are coerced to int. -/
def parse_scores (data : List Int) : Except PyErr Scores :=
  match data with
  | [] => .ok {}
  | [_] => .error .indexError
  | a :: b :: _ => .ok { home := a, away := b }

/-- Raw tv-network object handed to the missing parse_tv_network. -/
structure RawTVNetwork where
  id : Option String := none
  name : Option String := none
  deriving DecidableEq, Repr

/-- Modelled from the spec: the tv-network record produced by the missing
parse_tv_network of src/esd/promiedos/types/tvnetwork.py. -/
structure TVNetwork where
  id : Option String := none
  name : Option String := none
  deriving DecidableEq, Repr

/-- Modelled from the spec: parse_tv_network from the absent
tvnetwork.py. -/
def parse_tv_network (data : RawTVNetwork) : TVNetwork :=
  { id := data.id, name := data.name }

/-- Raw main-odds object handed to the missing parse_main_odds. -/
structure RawMainOdds where
  options : Option (List Int) := none
  deriving DecidableEq, Repr

/-- Modelled from the spec: the odds record produced by the missing
parse_main_odds of src/esd/promiedos/types/odds.py. -/
structure MainOdds where
  options : List Int := []
  deriving DecidableEq, Repr

/-- Modelled from the spec: parse_main_odds from the absent odds.py. -/
def parse_main_odds (data : RawMainOdds) : MainOdds :=
  { options := data.options.getD [] }

/-- Modelled from the spec: the league reference of a match
(src/esd/promiedos/types/league.py is absent from src/); parse_match only
ever uses its default value. -/
structure League where
  id : Option String := none
  name : Option String := none
  deriving DecidableEq, Repr

/-- Modelled from the spec: the lineups container of a match
(src/esd/promiedos/types/players.py is absent from src/); parse_match
only ever uses its default value. -/
structure Players where
  lineups : List String := []
  deriving DecidableEq, Repr

/-- The default start_time string of parse_match. -/
def defaultStartTime : String := "01-01-1970 00:00"

/-- Raw match object handed to parse_match. -/
structure RawMatch where
  id : Option String := none
  stage_round_name : Option String := none
  winner : Option Int := none
  teams : Option (List RawPTeam) := none
  scores : Option (List Int) := none
  tv_networks : Option (List RawTVNetwork) := none
  start_time : Option String := none
  url_name : Option String := none
  status : Option RawPStatus := none
  game_time : Option Int := none
  game_time_to_display : Option String := none
  game_time_status_to_display : Option String := none
  main_odds : Option RawMainOdds := none
  deriving DecidableEq, Repr

/-- Match dataclass (src/esd/promiedos/types/match.py lines 16-36), each
field typed by the value parse_match stores in it. -/
structure Match where
  id : Option String
  stage_round_name : Option String
  winner : Option Int
  teams : List PTeam
  scores : Scores
  slug : String
  status : PStatus
  start_time : Int
  current_time : Int
  time_to_display : String
  time_status_to_display : String
  tv_networks : List TVNetwork
  main_odds : MainOdds
  league : League := {}
  players : Players := {}
  deriving DecidableEq, Repr

/-- parse_match (src/esd/promiedos/types/match.py lines 39-63): the
start_time string (defaulting to "01-01-1970 00:00") is parsed with
`datetime.strptime(date_str, "%d-%m-%Y %H:%M")` before the Match
constructor call, whose keyword arguments are then evaluated in source
order; a format or calendar deviation raises ValueError, a short scores
list raises IndexError. -/
def parse_match (data : RawMatch) : Except PyErr Match := do
  let teams_data := data.teams.getD []
  let scores_data := data.scores.getD []
  let tv_networks_data := data.tv_networks.getD []
  let date_str := data.start_time.getD defaultStartTime
  let dt ← match pyStrptime date_str with
    | some dt => Except.ok dt
    | none => Except.error PyErr.valueError
  let scores ← parse_scores scores_data
  return { id := data.id
           stage_round_name := data.stage_round_name
           winner := data.winner
           scores := scores
           teams := teams_data.map parse_team
           slug := data.url_name.getD ""
           status := parse_pstatus (data.status.getD {})
           start_time := timestampOf dt
           current_time := data.game_time.getD 0
           time_to_display := data.game_time_to_display.getD ""
           time_status_to_display := data.game_time_status_to_display.getD ""
           tv_networks := tv_networks_data.map parse_tv_network
           main_odds := parse_main_odds (data.main_odds.getD {}) }

/-! ### The events service operation (src/esd/promiedos/service.py lines
22-45), the one place with input validation.  The helper
`is_available_date` lives in src/esd/utils.py, which is not present under
src/. -/

/-- The named date arguments accepted without a pattern check. -/
def sToday : String := "today"
def sYesterday : String := "yesterday"
def sTomorrow : String := "tomorrow"

/-- `available_dates` (src/esd/promiedos/service.py line 32). -/
def availableDates : List String := [sToday, sYesterday, sTomorrow]

/-- Modelled from the spec: `is_available_date` of the absent
src/esd/utils.py.  The service passes it the date string and the regular
expression of four digits, a dash, two digits, a dash and two digits; the
spec describes it as the date-pattern check, raising on an argument that
does not pass.  It is modelled as a full match of that pattern. -/
def matchesDatePattern (s : String) : Bool :=
  match s.data with
  | [a, b, c, d, '-', e, f, '-', g, h] =>
    (digToNat? a).isSome && (digToNat? b).isSome && (digToNat? c).isSome &&
    (digToNat? d).isSome && (digToNat? e).isSome && (digToNat? f).isSome &&
    (digToNat? g).isSome && (digToNat? h).isSome
  | _ => false

/-- The failures a call of PromiedosService.get_events can surface:
the dedicated domain error InvalidDate
(src/esd/promiedos/exceptions.py lines 12-16), a transport failure
re-raised unchanged, or the lookup failure of the "leagues" key. -/
inductive PromErr (ε : Type) where
  | invalidDate
  | transport (e : ε)
  | keyNotFound (k : Key)
  deriving DecidableEq

/-- The decoded body of the events endpoint, seen through the one key the
service reads. -/
structure RawEventsDoc (α : Type) where
  leagues : Option α := none

/-- PromiedosService.get_events (src/esd/promiedos/service.py lines
22-45): a date argument outside `available_dates` is first checked
against the date pattern and a failure is raised as InvalidDate; only
then is the transport called and the "leagues" key of the decoded body
returned, any exception re-raised unchanged. -/
def promiedosGetEvents {ε α : Type} (fetch : String → Except ε (RawEventsDoc α))
    (date : String) : Except (PromErr ε) α :=
  if availableDates.contains date || matchesDatePattern date then
    match fetch date with
    | .ok doc =>
      match doc.leagues with
      | some v => .ok v
      | none => .error (.keyNotFound .leagues)
    | .error e => .error (.transport e)
  else .error .invalidDate

end Promiedos

/-! ### State-threaded embedding of the parser calls.
The bodies of parse_events and parse_match assign to no enclosing or
global mutable state, so their embedding into an explicit-state
computation returns the pure parse and passes the interpreter state
through unchanged. -/

/-- A call of Sofascore.parse_events as a computation over an arbitrary
hidden interpreter state. -/
def parse_eventsCall (σ : Type) (events : List Sofascore.RawEvent)
    (target_status : Option String) : StateM σ (List Sofascore.Event) :=
  fun s => (Sofascore.parse_events events target_status, s)

/-- A call of Promiedos.parse_match as a computation over an arbitrary
hidden interpreter state. -/
def parse_matchCall (σ : Type) (data : Promiedos.RawMatch) :
    StateM σ (Except PyErr Promiedos.Match) :=
  fun s => (Promiedos.parse_match data, s)

/-- Two sequential invocations of the same computation, returning both
results. -/
def callTwice {σ α : Type} (m : StateM σ α) : StateM σ (α × α) := do
  let r1 ← m
  let r2 ← m
  return (r1, r2)

/-! ### Rendering of the canonical fixed-format date string. -/

/-- The two zero-padded decimal digits of a value below one hundred. -/
def twoDigits (n : Nat) : List Char :=
  [Promiedos.dchar (n / 10), Promiedos.dchar (n % 10)]

/-- The four zero-padded decimal digits of a value below ten thousand. -/
def fourDigits (n : Nat) : List Char :=
  [Promiedos.dchar (n / 1000), Promiedos.dchar (n / 100 % 10),
   Promiedos.dchar (n / 10 % 10), Promiedos.dchar (n % 10)]

/-- The characters of the canonical "DD-MM-YYYY HH:MM" rendering of a
datetime. -/
def renderList (y mo d h mi : Nat) : List Char :=
  twoDigits d ++ '-' :: (twoDigits mo ++ '-' :: (fourDigits y ++ ' ' :: (twoDigits h ++ ':' :: twoDigits mi)))

/-- The canonical "DD-MM-YYYY HH:MM" rendering of a datetime. -/
def renderFixed (y mo d h mi : Nat) : String :=
  String.mk (renderList y mo d h mi)

/-! ### Concrete sample payloads used by the singular statements below. -/

/-- Status strings appearing in the sample payloads. -/
def sNotStarted : String := "notstarted"
def sFinished : String := "finished"

/-- A raw status object with the given status type. -/
def rsOf (t : String) : Sofascore.RawStatus := { type := some t }

/-- A raw event entry with the given id and status object. -/
def mkEv (i : Int) (st : Option Sofascore.RawStatus) : Sofascore.RawEvent :=
  { id := some i, status := st }

/-- Five raw event entries of which exactly the second and the fourth
carry the status type of `sFinished`. -/
def ev1 : Sofascore.RawEvent := mkEv 10 (some (rsOf sNotStarted))
def ev2 : Sofascore.RawEvent := mkEv 20 (some (rsOf sFinished))
def ev3 : Sofascore.RawEvent := mkEv 30 none
def ev4 : Sofascore.RawEvent := mkEv 40 (some (rsOf sFinished))
def ev5 : Sofascore.RawEvent := mkEv 50 (some { type := none })

def fiveEvents : List Sofascore.RawEvent := [ev1, ev2, ev3, ev4, ev5]

/-- The two raw event entries of the end-to-end scenario of the spec:
id 1 not started, id 2 finished. -/
def specEv1 : Sofascore.RawEvent := mkEv 1 (some (rsOf sNotStarted))
def specEv2 : Sofascore.RawEvent := mkEv 2 (some (rsOf sFinished))

/-- A placeholder string for populated player fields. -/
def pStr : String := "x"

/-- A raw player payload with every field present except the name. -/
def rawPlayerNoName : Sofascore.RawPlayer :=
  { name := none
    slug := some pStr
    shortName := some pStr
    position := some pStr
    jerseyNumber := some pStr
    height := some 180
    preferredFoot := some pStr
    gender := some pStr
    id := some 7
    shirtNumber := some 9
    dateOfBirthTimestamp := some 1
    contractUntilTimestamp := some 2
    proposedMarketValue := some 3 }

/-- A fully populated raw player payload. -/
def rawPlayerFull : Sofascore.RawPlayer :=
  { rawPlayerNoName with name := some pStr }

/-- The Player record that parse_player produces from rawPlayerFull. -/
def playerFull : Sofascore.Player :=
  { name := pStr
    slug := pStr
    short_name := pStr
    position := pStr
    jersey_number := pStr
    height := 180
    preferred_foot := pStr
    gender := pStr
    id := 7
    shirt_number := 9
    date_of_birth := 1
    contract_until := 2
    market_value := 3 }

/-- A raw event entry whose homeScore sub-object is absent. -/
def evNoScore : Sofascore.RawEvent := { id := some 99 }

/-- A raw detailed-team payload. -/
def rawTeamX : Sofascore.RawTeamEx := { name := some pStr, id := some 11 }

/-- A transport world whose team-players endpoint raises. -/
def worldRosterFails : Sofascore.SofaWorld :=
  { teamPayload := fun _ => .ok rawTeamX
    playersPayload := fun _ => .error .indexError }

/-- A transport world in which both team endpoints succeed. -/
def worldOk : Sofascore.SofaWorld :=
  { teamPayload := fun _ => .ok rawTeamX
    playersPayload := fun _ => .ok [{ player := some rawPlayerFull }] }

/-- Sample values for a recognized statistics entry. -/
def v60 : String := "60"
def v40 : String := "40"
def p60 : String := "60%"
def p40 : String := "40%"

/-- A label outside the stats_map lookup table. -/
def sUnknownLabel : String := "Ball possession"

/-- A recognized raw statistics entry (the possession label). -/
def statPossession : Promiedos.RawStat :=
  { name := some Promiedos.nPossession
    values := some [v60, v40]
    percentages := some [p60, p40] }

/-- An unrecognized raw statistics entry. -/
def statUnknown : Promiedos.RawStat :=
  { name := some sUnknownLabel
    values := some [v60, v40]
    percentages := some [p60, p40] }

/-- A start_time string accepted by strptime although it does not match
the two-digit "DD-MM-YYYY HH:MM" pattern. -/
def sLenientDate : String := "1-1-1970 00:00"

/-- A start_time string matching the textual "DD-MM-YYYY HH:MM" pattern
whose day does not exist in its month. -/
def sBadDay : String := "31-02-2020 00:00"

/-- A start_time string rejected by strptime. -/
def sNonsense : String := "soon"

/-- Raw match payloads differing only in the start_time string. -/
def rawMatchLenient : Promiedos.RawMatch := { start_time := some sLenientDate }
def rawMatchBadDay : Promiedos.RawMatch := { start_time := some sBadDay }
def rawMatchNonsense : Promiedos.RawMatch := { start_time := some sNonsense }
def rawMatchCanonical : Promiedos.RawMatch := { start_time := some (renderFixed 2024 12 25 18 30) }

/-- A date argument that is neither a named date nor pattern-shaped. -/
def sBadDate : String := "someday"

/-- A concrete transport collaborator for the events endpoint. -/
def fetchOk : String → Except Unit (Promiedos.RawEventsDoc Nat) :=
  fun _ => .ok { leagues := some 1 }

/-! ## Claims -/

/-- Helper: the boolean selection predicate of parse_events agrees with
propositional equality of the extracted status type and the target. -/
theorem parse_events_eq_filter_map (events : List Sofascore.RawEvent)
    (target : Option String) :
    Sofascore.parse_events events target =
      (events.filter (fun e => decide (Sofascore.rawStatusType e = target))).map
        Sofascore.eventOfRaw := by
  unfold Sofascore.parse_events
  congr 1
  apply List.filter_congr
  intro e _
  by_cases h : Sofascore.rawStatusType e = target <;> simp [h]

/-- C1: for every list of raw event entries and every target status
string, parse_events returns exactly the records built (by the
comprehension body eventOfRaw) from the entries whose extracted status
type equals the target, in input order; in particular, on a concrete
five-entry list of which exactly two match, it returns exactly those two
records in input order. -/
theorem c1_parse_events_filters_by_status :
    (∀ (events : List Sofascore.RawEvent) (s : String),
      Sofascore.parse_events events (some s) =
        (events.filter (fun e => decide (Sofascore.rawStatusType e = some s))).map
          Sofascore.eventOfRaw)
    ∧ Sofascore.parse_events fiveEvents (some sFinished) =
        [Sofascore.eventOfRaw ev2, Sofascore.eventOfRaw ev4] := by
  constructor
  · intro events s
    exact parse_events_eq_filter_map events (some s)
  · decide

/-- C9: called with a target status of None, parse_events returns exactly
the records built from the entries with no status type at all, in input
order; and the extracted status type is absent exactly when the entry has
no status object or its status object has no type key. -/
theorem c9_none_target_selects_absent_status :
    (∀ events : List Sofascore.RawEvent,
      Sofascore.parse_events events none =
        (events.filter (fun e => decide (Sofascore.rawStatusType e = none))).map
          Sofascore.eventOfRaw)
    ∧ (∀ e : Sofascore.RawEvent,
        Sofascore.rawStatusType e = none ↔
          e.status = none ∨ ∃ st, e.status = some st ∧ st.type = none) := by
  constructor
  · intro events
    exact parse_events_eq_filter_map events none
  · intro e
    unfold Sofascore.rawStatusType
    cases h : e.status with
    | none => simp
    | some st => simp

/-- C3: evaluation of parse_events at the end-to-end example of the spec
with the only expressible no-filter argument (Python None): both entries
are excluded, while the record of id 1 is returned only when the status
string "notstarted" is passed explicitly.  (The claimed invocation
without a target_status argument is a TypeError in the source: the
parameter has no default, yet the service calls pass only the events
list.) -/
theorem c3_none_is_not_an_identity_filter :
    Sofascore.parse_events [specEv1, specEv2] none = []
    ∧ (Sofascore.parse_events [specEv1, specEv2] (some sNotStarted)).map
        (fun e => e.id) = [some 1] := by
  constructor
  · decide
  · decide

/-- C2 counterexample: parse_player applied to a payload with every field
present except the name raises KeyError instead of returning a Player
record with the name defaulted. -/
theorem c2_counterexample_player_field_raises :
    Sofascore.parse_player rawPlayerNoName = .error (.keyError .name) := rfl

/-- C2 (amended): a missing score sub-object yields the zero-valued score
record and the score parser defaults every missing field, but parse_player
reads its fields with raising lookups: a payload with the name absent
raises KeyError rather than defaulting. -/
theorem c2_amended_score_defaults_player_raises
    (e : Sofascore.RawEvent) (he : e.homeScore = none)
    (raw : Sofascore.RawPlayer) (hr : raw.name = none) :
    (Sofascore.eventOfRaw e).home_score = ⟨0, 0, 0, 0, 0⟩
    ∧ (∀ rts : Sofascore.RawTeamScore,
        Sofascore.parse_team_score rts =
          ⟨rts.current.getD 0, rts.display.getD 0, rts.period1.getD 0,
           rts.period2.getD 0, rts.normaltime.getD 0⟩)
    ∧ Sofascore.parse_player raw = .error (.keyError .name) := by
  refine ⟨?_, fun rts => rfl, ?_⟩
  · unfold Sofascore.eventOfRaw
    rw [he]
    rfl
  · obtain ⟨nm, f2, f3, f4, f5, f6, f7, f8, f9, f10, f11, f12, f13⟩ := raw
    simp only at hr
    subst hr
    rfl

/-- C2 witness: the amended statement at the concrete payloads. -/
theorem c2_amended_witness :
    (Sofascore.eventOfRaw evNoScore).home_score = ⟨0, 0, 0, 0, 0⟩
    ∧ Sofascore.parse_player rawPlayerNoName = .error (.keyError .name) := by
  have h := c2_amended_score_defaults_player_raises evNoScore rfl rawPlayerNoName rfl
  exact ⟨h.1, h.2.2⟩

/-- C6: in the composed get_team client operation, if the team-detail
call succeeds and the roster sub-call raises, the whole operation raises
that error, so no partial team record is returned. -/
theorem c6_roster_failure_fails_get_team
    (w : Sofascore.SofaWorld) (team_id : Int) (e : PyErr) (team : Sofascore.TeamEx)
    (ht : Sofascore.serviceGetTeam w team_id = .ok team)
    (hp : Sofascore.serviceGetTeamPlayers w team_id = .error e) :
    Sofascore.clientGetTeam w team_id = .error e := by
  unfold Sofascore.clientGetTeam
  rw [ht, hp]
  rfl

/-- C6 witness: the theorem at a concrete transport world whose
team-players endpoint raises. -/
theorem c6_roster_failure_witness :
    Sofascore.clientGetTeam worldRosterFails 3 = .error .indexError :=
  c6_roster_failure_fails_get_team worldRosterFails 3 .indexError
    (Sofascore.parse_team_ex rawTeamX) rfl rfl

/-- C10: when both service calls succeed, the composed get_team operation
returns exactly the record of the team-detail parse with its players
field replaced by the roster result; every other field is unchanged. -/
theorem c10_get_team_changes_only_players
    (w : Sofascore.SofaWorld) (team_id : Int) (base : Sofascore.TeamEx)
    (ps : List Sofascore.Player)
    (ht : Sofascore.serviceGetTeam w team_id = .ok base)
    (hp : Sofascore.serviceGetTeamPlayers w team_id = .ok ps) :
    Sofascore.clientGetTeam w team_id = .ok { base with players := ps }
    ∧ ({ base with players := ps } : Sofascore.TeamEx).players = ps
    ∧ ({ base with players := ps } : Sofascore.TeamEx).name = base.name
    ∧ ({ base with players := ps } : Sofascore.TeamEx).short_name = base.short_name
    ∧ ({ base with players := ps } : Sofascore.TeamEx).slug = base.slug
    ∧ ({ base with players := ps } : Sofascore.TeamEx).name_code = base.name_code
    ∧ ({ base with players := ps } : Sofascore.TeamEx).id = base.id
    ∧ ({ base with players := ps } : Sofascore.TeamEx).entity_type = base.entity_type
    ∧ ({ base with players := ps } : Sofascore.TeamEx).country = base.country
    ∧ ({ base with players := ps } : Sofascore.TeamEx).color = base.color
    ∧ ({ base with players := ps } : Sofascore.TeamEx).manager = base.manager := by
  refine ⟨?_, rfl, rfl, rfl, rfl, rfl, rfl, rfl, rfl, rfl, rfl⟩
  unfold Sofascore.clientGetTeam
  rw [ht, hp]
  rfl

/-- C10 witness: the theorem at a concrete transport world in which both
endpoints succeed. -/
theorem c10_get_team_witness :
    Sofascore.clientGetTeam worldOk 3 =
      .ok { Sofascore.parse_team_ex rawTeamX with players := [playerFull] }
    ∧ ({ Sofascore.parse_team_ex rawTeamX with players := [playerFull] } :
        Sofascore.TeamEx).manager = (Sofascore.parse_team_ex rawTeamX).manager := by
  have h := c10_get_team_changes_only_players worldOk 3
    (Sofascore.parse_team_ex rawTeamX) [playerFull] rfl rfl
  exact ⟨h.1, h.2.2.2.2.2.2.2.2.2.2⟩

/-- C8: parsing is pure and deterministic: running two sequential calls
of the same parser on the same payload from any hidden interpreter state
yields the same records twice (the pure parse in both positions) and
leaves the state unchanged. -/
theorem c8_parsers_pure_and_deterministic (σ : Type) (s : σ)
    (events : List Sofascore.RawEvent) (target : Option String)
    (data : Promiedos.RawMatch) :
    (callTwice (parse_eventsCall σ events target)).run s =
      ((Sofascore.parse_events events target, Sofascore.parse_events events target), s)
    ∧ (callTwice (parse_matchCall σ data)).run s =
      ((Promiedos.parse_match data, Promiedos.parse_match data), s) :=
  ⟨rfl, rfl⟩

/-- C5: on a two-entry statistics list with one recognized and one
unrecognized label (in either order), parse_match_stats populates exactly
the one statistic field the lookup table assigns to the recognized label
and leaves every other field absent; the unrecognized entry is silently
ignored. -/
theorem c5_one_recognized_one_ignored
    (r u : Promiedos.RawStat) (rn un : String) (k : Promiedos.StatKey)
    (hv av hp2 ap : String) (vrest prest : List String)
    (hrn : r.name = some rn) (hk : Promiedos.statsMap rn = some k)
    (hun : u.name = some un) (hku : Promiedos.statsMap un = none)
    (hvs : r.values = some (hv :: av :: vrest))
    (hps : r.percentages = some (hp2 :: ap :: prest)) :
    Promiedos.parse_match_stats [r, u] =
      .ok (Promiedos.setStat k ⟨hv, hp2, av, ap⟩ {})
    ∧ Promiedos.parse_match_stats [u, r] =
      .ok (Promiedos.setStat k ⟨hv, hp2, av, ap⟩ {})
    ∧ Promiedos.populatedCount (Promiedos.setStat k ⟨hv, hp2, av, ap⟩ {}) = 1 := by
  obtain ⟨rname, rvalues, rpercentages⟩ := r
  obtain ⟨uname, uvalues, upercentages⟩ := u
  simp only at hrn hun hvs hps
  subst hrn hun hvs hps
  refine ⟨?_, ?_, ?_⟩
  · simp [Promiedos.parse_match_stats, Promiedos.parseStatsLoop, getKey, hk, hku,
      Promiedos.parse_stats, listGet, Bind.bind, Except.bind, Pure.pure, Except.pure]
  · simp [Promiedos.parse_match_stats, Promiedos.parseStatsLoop, getKey, hk, hku,
      Promiedos.parse_stats, listGet, Bind.bind, Except.bind, Pure.pure, Except.pure]
  · cases k <;> rfl

/-- C5 witness: the theorem at a concrete possession entry and a concrete
unrecognized entry. -/
theorem c5_witness :
    Promiedos.parse_match_stats [statPossession, statUnknown] =
      .ok (Promiedos.setStat .possession ⟨v60, p60, v40, p40⟩ {})
    ∧ Promiedos.parse_match_stats [statUnknown, statPossession] =
      .ok (Promiedos.setStat .possession ⟨v60, p60, v40, p40⟩ {})
    ∧ Promiedos.populatedCount (Promiedos.setStat .possession ⟨v60, p60, v40, p40⟩ {}) = 1 :=
  c5_one_recognized_one_ignored statPossession statUnknown
    Promiedos.nPossession sUnknownLabel .possession v60 v40 p60 p40 [] []
    rfl (by decide) rfl (by decide) rfl rfl

/-- C7: the date validation of the Promiedos events operation: a date
argument that is neither a named date nor pattern-shaped yields the
dedicated domain error InvalidDate whatever the transport returns (the
transport is not consulted), and an argument in the allowed set or
matching the pattern never yields that validation error. -/
theorem c7_get_events_date_validation (ε α : Type)
    (fetch : String → Except ε (Promiedos.RawEventsDoc α)) (date : String) :
    (Promiedos.availableDates.contains date = false →
      Promiedos.matchesDatePattern date = false →
      Promiedos.promiedosGetEvents fetch date = .error .invalidDate)
    ∧ ((Promiedos.availableDates.contains date = true ∨
        Promiedos.matchesDatePattern date = true) →
      Promiedos.promiedosGetEvents fetch date ≠ .error .invalidDate) := by
  constructor
  · intro h1 h2
    unfold Promiedos.promiedosGetEvents
    rw [h1, h2]
    rfl
  · intro h
    have hc : (Promiedos.availableDates.contains date ||
        Promiedos.matchesDatePattern date) = true := by
      rcases h with h | h
      · rw [h]; rfl
      · rw [h]; exact Bool.or_true _
    unfold Promiedos.promiedosGetEvents
    rw [hc]
    cases hf : fetch date with
    | ok doc =>
      cases hl : doc.leagues with
      | some v => simp [hl]
      | none => simp [hl]
    | error e => simp

/-- C7 witness: the theorem at a concrete rejected date and at the named
date argument accepted without a pattern check. -/
theorem c7_get_events_witness :
    Promiedos.promiedosGetEvents fetchOk sBadDate = .error .invalidDate
    ∧ Promiedos.promiedosGetEvents fetchOk Promiedos.sToday ≠ .error .invalidDate :=
  ⟨(c7_get_events_date_validation Unit Nat fetchOk sBadDate).1 (by decide) (by decide),
   (c7_get_events_date_validation Unit Nat fetchOk Promiedos.sToday).2 (Or.inl (by decide))⟩

/-! ## The fixed-format roundtrip lemmas for C4. -/

/-- Helper: the digit character of a value below ten reads back as that
value. -/
theorem digToNat?_dchar (n : Nat) (h : n < 10) :
    Promiedos.digToNat? (Promiedos.dchar n) = some n := by
  interval_cases n <;> decide

/-- Helper: a digit character is not whitespace. -/
theorem pySpace_dchar (n : Nat) (h : n < 10) :
    Promiedos.pySpace (Promiedos.dchar n) = false := by
  interval_cases n <;> decide

/-- Helper: a space is whitespace. -/
theorem pySpace_space : Promiedos.pySpace ' ' = true := rfl

/-- Helper: every month length is at most 31 days. -/
theorem daysInMonth_le (y m : Nat) : Promiedos.daysInMonth y m ≤ 31 := by
  unfold Promiedos.daysInMonth
  split
  · split <;> omega
  · split <;> omega

/-- Helper: the characters of a made string. -/
theorem stringDataMk (l : List Char) : (String.mk l).data = l := rfl

/-- Helper: the full pattern match of "%d-%m-%Y %H:%M" succeeds on the
canonical zero-padded rendering of an in-range datetime and returns its
components. -/
theorem matchFixedFormat_render (y mo d h mi : Nat)
    (hy2 : y ≤ 9999) (hmo1 : 1 ≤ mo) (hmo2 : mo ≤ 12)
    (hd1 : 1 ≤ d) (hd2 : d ≤ 31) (hh : h ≤ 23) (hmi : mi ≤ 59) :
    Promiedos.matchFixedFormat (renderList y mo d h mi) = some (d, mo, y, h, mi) := by
  have hda : d / 10 < 10 := by omega
  have hdb : d % 10 < 10 := by omega
  have hma : mo / 10 < 10 := by omega
  have hmb : mo % 10 < 10 := by omega
  have hya : y / 1000 < 10 := by omega
  have hyb : y / 100 % 10 < 10 := by omega
  have hyc : y / 10 % 10 < 10 := by omega
  have hyd : y % 10 < 10 := by omega
  have hha : h / 10 < 10 := by omega
  have hhb : h % 10 < 10 := by omega
  have hia : mi / 10 < 10 := by omega
  have hib : mi % 10 < 10 := by omega
  have ed : 10 * (d / 10) + d % 10 = d := by omega
  have emo : 10 * (mo / 10) + mo % 10 = mo := by omega
  have ey : 1000 * (y / 1000) + 100 * (y / 100 % 10) + 10 * (y / 10 % 10) + y % 10 = y := by
    omega
  have eh : 10 * (h / 10) + h % 10 = h := by omega
  have emi : 10 * (mi / 10) + mi % 10 = mi := by omega
  have hia5 : mi / 10 ≤ 5 := by omega
  simp [renderList, twoDigits, fourDigits, Promiedos.matchFixedFormat,
    Promiedos.parseDay, Promiedos.parseMonth, Promiedos.parseYear, Promiedos.parseWS,
    Promiedos.parseHour, Promiedos.parseMinFinal, List.dropWhile_cons,
    digToNat?_dchar _ hda, digToNat?_dchar _ hdb, digToNat?_dchar _ hma,
    digToNat?_dchar _ hmb, digToNat?_dchar _ hya, digToNat?_dchar _ hyb,
    digToNat?_dchar _ hyc, digToNat?_dchar _ hyd, digToNat?_dchar _ hha,
    digToNat?_dchar _ hhb, digToNat?_dchar _ hia, digToNat?_dchar _ hib,
    pySpace_dchar _ hha, pySpace_space,
    ed, emo, ey, eh, emi, hd1, hd2, hmo1, hmo2, hh, hmi, hia5, Option.bind]

/-- Helper: strptime with "%d-%m-%Y %H:%M" accepts the canonical
rendering of an in-range, calendar-valid datetime and returns exactly
that datetime. -/
theorem pyStrptime_render (y mo d h mi : Nat)
    (hy1 : 1 ≤ y) (hy2 : y ≤ 9999) (hmo1 : 1 ≤ mo) (hmo2 : mo ≤ 12)
    (hd1 : 1 ≤ d) (hdm : d ≤ Promiedos.daysInMonth y mo) (hh : h ≤ 23) (hmi : mi ≤ 59) :
    Promiedos.pyStrptime (renderFixed y mo d h mi) = some ⟨y, mo, d, h, mi⟩ := by
  have hd2 : d ≤ 31 := le_trans hdm (daysInMonth_le y mo)
  unfold Promiedos.pyStrptime renderFixed
  rw [stringDataMk, matchFixedFormat_render y mo d h mi hy2 hmo1 hmo2 hd1 hd2 hh hmi]
  simp [hy1, hdm]

/-- C4 counterexample: the start_time string "1-1-1970 00:00" does not
match the two-digit "DD-MM-YYYY HH:MM" pattern, yet parse_match returns a
record (start_time epoch 0) instead of raising; and "31-02-2020 00:00"
matches that textual pattern, yet parse_match raises ValueError because
the day does not exist in the month. -/
theorem c4_counterexample_lenient_and_calendar :
    (Promiedos.parse_match rawMatchLenient).map Promiedos.Match.start_time = .ok 0
    ∧ Promiedos.parse_match rawMatchBadDay = .error .valueError := by
  constructor
  · rfl
  · rfl

/-- C4 (amended): parse_match returns the corresponding epoch timestamp
for every start_time string that strptime accepts for the fixed pattern —
in particular the canonical zero-padded rendering of any in-range,
calendar-valid datetime — and raises ValueError for every start_time
string the fixed pattern rejects; no fallback format is tried. -/
theorem c4_amended_fixed_format_dates :
    (∀ (y mo d h mi : Nat) (raw : Promiedos.RawMatch) (sc : Promiedos.Scores),
      1 ≤ y → y ≤ 9999 → 1 ≤ mo → mo ≤ 12 → 1 ≤ d → d ≤ Promiedos.daysInMonth y mo →
      h ≤ 23 → mi ≤ 59 →
      raw.start_time = some (renderFixed y mo d h mi) →
      Promiedos.parse_scores (raw.scores.getD []) = .ok sc →
      (Promiedos.parse_match raw).map Promiedos.Match.start_time =
        .ok (Promiedos.timestampOf ⟨y, mo, d, h, mi⟩))
    ∧ (∀ (raw : Promiedos.RawMatch) (s : String),
      raw.start_time = some s → Promiedos.pyStrptime s = none →
      Promiedos.parse_match raw = .error .valueError) := by
  constructor
  · intro y mo d h mi raw sc hy1 hy2 hmo1 hmo2 hd1 hdm hh hmi hst hsc
    have hps := pyStrptime_render y mo d h mi hy1 hy2 hmo1 hmo2 hd1 hdm hh hmi
    unfold Promiedos.parse_match
    rw [hst]
    simp only [Option.getD] at hsc
    simp [Option.getD, hps, hsc, Except.map, Bind.bind, Except.bind, Pure.pure,
      Except.pure]
  · intro raw s hst hnone
    unfold Promiedos.parse_match
    rw [hst]
    simp [Option.getD, hnone, Bind.bind, Except.bind]

/-- C4 witness: the amended statement at the canonical rendering of
2024-12-25 18:30 (epoch 1735151400) and at a rejected string. -/
theorem c4_amended_witness :
    (Promiedos.parse_match rawMatchCanonical).map Promiedos.Match.start_time =
      .ok 1735151400
    ∧ Promiedos.parse_match rawMatchNonsense = .error .valueError := by
  constructor
  · have h := c4_amended_fixed_format_dates.1 2024 12 25 18 30 rawMatchCanonical {}
      (by omega) (by omega) (by omega) (by omega) (by omega) (by decide)
      (by omega) (by omega) rfl rfl
    have he : Promiedos.timestampOf ⟨2024, 12, 25, 18, 30⟩ = 1735151400 := by decide
    rw [he] at h
    exact h
  · exact c4_amended_fixed_format_dates.2 rawMatchNonsense sNonsense rfl (by decide)
